import Mathlib

/-!
Shallow embedding of the Multi-Doc-Chat repository (a retrieval-augmented chat
pipeline) together with proofs about the claims of its specification.

The embedding follows the Python source files:
  * `multi_doc_chat/src/document_ingestion/data_ingestion.py`
    (`ChatIngestor`, `FaissManager`)
  * `multi_doc_chat/src/document_chat/retrieval.py` (`ConversationalRAG`)
  * `multi_doc_chat/model/models.py` (`ChatAnswer`)
  * `multi_doc_chat/utils/file_io.py` (`save_uploaded_files`)
  * `multi_doc_chat/utils/document_ops.py` (`load_documents`)

Machine-level conventions used throughout:
  * Python exceptions are modelled by the inductive `PyErr`; fallible code
    returns `Except PyErr α`.
  * 32-bit arithmetic of SHA-256 is `Nat` arithmetic reduced modulo `2 ^ 32`.
  * Dictionaries with a known key set are structures with `Option` fields
    (`none` = key absent).
-/

namespace MultiDocChat

/-- Python exceptions relevant to the embedded code.  `projectException` embeds
the application-level `ProjectException`.  Modelled from the spec: the module
`multi_doc_chat/exception` is not under `src/`; per spec section 7 the
application exception is "a single application-level exception carrying the
original cause and originating context", so `projectException` carries a
message and an optional cause (Python chains the active exception as the
cause when a new exception is raised inside an `except` block). -/
inductive PyErr where
  | typeError (msg : String)
  | attributeError (msg : String)
  | keyError (msg : String)
  | runtimeError (msg : String)
  | valueError (msg : String)
  | fileNotFoundError (msg : String)
  | validationError (msg : String)
  | projectException (msg : String) (cause : Option PyErr)

/-- The message carried by an exception (used when an exception object is
itself passed as the first argument of `ProjectException`). -/
def PyErr.message : PyErr → String
  | .typeError m => m
  | .attributeError m => m
  | .keyError m => m
  | .runtimeError m => m
  | .valueError m => m
  | .fileNotFoundError m => m
  | .validationError m => m
  | .projectException m _ => m

/-- `raise ProjectException(e, sys)` inside `except ... as e`: the new
application-level exception carries the original error as message and cause. -/
def reraise (e : PyErr) : PyErr := .projectException e.message (some e)

/-- Metadata mapping of a document chunk, restricted to the keys the embedded
code reads (`source`, `file_path`, `raw_id`); `none` means the key is absent.
Values are strings, as produced by the document loaders. -/
structure ChunkMeta where
  source : Option String
  file_path : Option String
  raw_id : Option String

/-- A langchain `Document`: chunk text plus its metadata mapping. -/
structure Document where
  page_content : String
  metadata : ChunkMeta

namespace SHA256

/-- Reduce modulo `2 ^ 32` (32-bit word arithmetic). -/
def w32 (n : Nat) : Nat := n % 4294967296

/-- Right rotation of a 32-bit word. -/
def rotr (n x : Nat) : Nat := (x >>> n) ||| w32 (x <<< (32 - n))

def ch (x y z : Nat) : Nat := (x &&& y) ^^^ ((x ^^^ 4294967295) &&& z)

def maj (x y z : Nat) : Nat := (x &&& y) ^^^ (x &&& z) ^^^ (y &&& z)

def bigSigma0 (x : Nat) : Nat := rotr 2 x ^^^ rotr 13 x ^^^ rotr 22 x

def bigSigma1 (x : Nat) : Nat := rotr 6 x ^^^ rotr 11 x ^^^ rotr 25 x

def smallSigma0 (x : Nat) : Nat := rotr 7 x ^^^ rotr 18 x ^^^ (x >>> 3)

def smallSigma1 (x : Nat) : Nat := rotr 17 x ^^^ rotr 19 x ^^^ (x >>> 10)

/-- The 64 round constants of SHA-256 (FIPS 180-4, written in decimal). -/
def K : List Nat :=
  [1116352408, 1899447441, 3049323471, 3921009573,
   961987163, 1508970993, 2453635748, 2870763221,
   3624381080, 310598401, 607225278, 1426881987,
   1925078388, 2162078206, 2614888103, 3248222580,
   3835390401, 4022224774, 264347078, 604807628,
   770255983, 1249150122, 1555081692, 1996064986,
   2554220882, 2821834349, 2952996808, 3210313671,
   3336571891, 3584528711, 113926993, 338241895,
   666307205, 773529912, 1294757372, 1396182291,
   1695183700, 1986661051, 2177026350, 2456956037,
   2730485921, 2820302411, 3259730800, 3345764771,
   3516065817, 3600352804, 4094571909, 275423344,
   430227734, 506948616, 659060556, 883997877,
   958139571, 1322822218, 1537002063, 1747873779,
   1955562222, 2024104815, 2227730452, 2361852424,
   2428436474, 2756734187, 3204031479, 3329325298]

/-- The initial hash value of SHA-256 (FIPS 180-4, written in decimal). -/
def H0 : List Nat :=
  [1779033703, 3144134277, 1013904242, 2773480762,
   1359893119, 2600822924, 528734635, 1541459225]

/-- The 8-byte big-endian encoding of a (64-bit) length. -/
def bigEndian8 (n : Nat) : List Nat :=
  [(n >>> 56) &&& 255, (n >>> 48) &&& 255, (n >>> 40) &&& 255, (n >>> 32) &&& 255,
   (n >>> 24) &&& 255, (n >>> 16) &&& 255, (n >>> 8) &&& 255, n &&& 255]

/-- SHA-256 padding: append `0x80`, zero bytes up to 56 mod 64, then the
message bit length as 8 big-endian bytes. -/
def padMessage (msg : List Nat) : List Nat :=
  let z := (119 - msg.length % 64) % 64
  msg ++ [0x80] ++ List.replicate z 0 ++ bigEndian8 (8 * msg.length)

/-- Group bytes into big-endian 32-bit words. -/
def toWords : List Nat → List Nat
  | a :: b :: c :: d :: rest =>
      ((((a <<< 8) ||| b) <<< 8 ||| c) <<< 8 ||| d) :: toWords rest
  | _ => []

/-- Group words into blocks of 16. -/
def toBlocks (ws : List Nat) : List (List Nat) :=
  if hw : ws = [] then []
  else ws.take 16 :: toBlocks (ws.drop 16)
termination_by ws.length
decreasing_by
  simp only [List.length_drop]
  have hpos : 0 < ws.length := List.length_pos.mpr hw
  omega

/-- Extend a 16-word block by `n` additional schedule words. -/
def extendSchedule (w : List Nat) : Nat → List Nat
  | 0 => w
  | n + 1 =>
      let w2 := extendSchedule w n
      let L := w2.length
      w2 ++ [w32 (smallSigma1 (w2.getD (L - 2) 0) + w2.getD (L - 7) 0 +
                  smallSigma0 (w2.getD (L - 15) 0) + w2.getD (L - 16) 0)]

/-- One round of the SHA-256 compression function on the 8-word state. -/
def compressStep (st : List Nat) (kw : Nat × Nat) : List Nat :=
  match st with
  | [a, b, c, d, e, f, g, h] =>
      let t1 := w32 (h + bigSigma1 e + ch e f g + kw.1 + kw.2)
      let t2 := w32 (bigSigma0 a + maj a b c)
      [w32 (t1 + t2), a, b, c, w32 (d + t1), e, f, g]
  | other => other

/-- Process one 512-bit block. -/
def processBlock (h : List Nat) (block : List Nat) : List Nat :=
  let w := extendSchedule block 48
  let st := (K.zip w).foldl compressStep h
  (h.zip st).map fun p => w32 (p.1 + p.2)

/-- SHA-256 of a byte sequence, as the list of 8 hash words. -/
def sha256Words (msg : List Nat) : List Nat :=
  (toBlocks (toWords (padMessage msg))).foldl processBlock H0

def hexDigit (n : Nat) : Char :=
  if n < 10 then Char.ofNat (48 + n) else Char.ofNat (87 + n)

/-- The 8 lowercase hex digits of a 32-bit word. -/
def word8Hex (n : Nat) : List Char :=
  (List.range 8).map fun i => hexDigit ((n >>> (28 - 4 * i)) &&& 15)

/-- SHA-256 of a byte sequence as the usual lowercase hex digest. -/
def sha256HexBytes (msg : List Nat) : String :=
  String.mk (((sha256Words msg).map word8Hex).flatten)

/-- UTF-8 encoding of a Unicode code point. -/
def utf8Encode (c : Nat) : List Nat :=
  if c < 0x80 then [c]
  else if c < 0x800 then
    [0xC0 ||| (c >>> 6), 0x80 ||| (c &&& 0x3F)]
  else if c < 0x10000 then
    [0xE0 ||| (c >>> 12), 0x80 ||| ((c >>> 6) &&& 0x3F), 0x80 ||| (c &&& 0x3F)]
  else
    [0xF0 ||| (c >>> 18), 0x80 ||| ((c >>> 12) &&& 0x3F),
     0x80 ||| ((c >>> 6) &&& 0x3F), 0x80 ||| (c &&& 0x3F)]

/-- UTF-8 bytes of a string (`text.encode("utf-8")`). -/
def strBytes (s : String) : List Nat :=
  (s.data.map fun c => utf8Encode c.toNat).flatten

end SHA256

/-- `hashlib.sha256(text.encode("utf-8")).hexdigest()`. -/
def sha256Hexdigest (text : String) : String :=
  SHA256.sha256HexBytes (SHA256.strBytes text)

namespace FaissManager

/-- `src = md.get("source") or md.get("file_path")` in `FaissManager._fingerprint`:
Python `or` yields the right operand whenever the left one is falsy, and for a
string value "falsy" means the empty string (an absent key gives `None`, also
falsy).  Note that the `file_path` value is taken as-is, even when it is
itself `None` or empty. -/
def pickSrc (md : ChunkMeta) : Option String :=
  match md.source with
  | some s => if s = "" then md.file_path else some s
  | none => md.file_path

/-- `FaissManager._fingerprint(text, md)`: `f"{src}::{'' if rid is None else rid}"`
when the selected source is not `None`, else the SHA-256 hex digest of the
chunk text. -/
def _fingerprint (text : String) (md : ChunkMeta) : String :=
  match pickSrc md with
  | some src => src ++ "::" ++ md.raw_id.getD ""
  | none => sha256Hexdigest text

end FaissManager

/-- The FAISS vector store (external library), modelled as the chunk payloads
it holds: stored texts and their metadata. -/
structure VectorStore where
  texts : List String
  metadatas : List ChunkMeta

/-- `FAISS.from_texts(texts=texts, embedding=self.emb, metadatas=metadatas or [])`. -/
def VectorStore.fromTexts (texts : List String) (metadatas : List ChunkMeta) :
    VectorStore :=
  ⟨texts, metadatas⟩

/-- `vs.add_documents(new_docs)`: append the new chunks to the store. -/
def VectorStore.addDocuments (vs : VectorStore) (docs : List Document) :
    VectorStore :=
  ⟨vs.texts ++ docs.map Document.page_content,
   vs.metadatas ++ docs.map Document.metadata⟩

/-- The ledger JSON `ingested_meta.json`, restricted to the two keys the code
touches.  A key's value is the list of fingerprints stored under it (the JSON
object `(fingerprint -> true)`), and `none` means the key is absent. -/
structure MetaDict where
  rows : Option (List String)
  raws : Option (List String)

/-- Contents of the index directory on disk: the two index artifact files
(`index.faiss`, `index.pkl`), the stored index payload behind them, and the
parsed ledger file (`none` when absent, unparsable, or a falsy JSON value). -/
structure DiskState where
  hasIndexFaiss : Bool
  hasIndexPkl : Bool
  savedIndex : VectorStore
  savedMeta : Option MetaDict

/-- In-memory state of a `FaissManager`: the single vector-store handle
(`self.vs`), the in-memory ledger (`self._meta`) and the directory contents. -/
structure FaissState where
  vs : Option VectorStore
  meta : MetaDict
  disk : DiskState

namespace FaissManager

/-- Ledger seeding in `FaissManager.__init__`: the parsed `ingested_meta.json`
when one is on disk, else the default `(rows -> empty)`. -/
def initMeta (d : DiskState) : MetaDict :=
  match d.savedMeta with
  | some m => m
  | none => ⟨some [], none⟩

/-- The manager state right after `__init__`'s ledger seeding and before any
call to `load_or_create`: `self.vs = None`. -/
def freshState (d : DiskState) : FaissState :=
  ⟨none, initMeta d, d⟩

/-- `FaissManager.__init__` as a whole: after seeding the ledger it stores the
model loader under the misspelled attribute `medel_loader` and then reads
`self.model_loader.load_embeddings()`, so construction always raises
`AttributeError`. -/
def initManager (d : DiskState) : Except PyErr FaissState :=
  let _st := freshState d
  .error (.attributeError "FaissManager object has no attribute model_loader")

/-- `FaissManager._exists`: both index artifact files are present. -/
def _exists (d : DiskState) : Bool := d.hasIndexFaiss && d.hasIndexPkl

/-- `self.vs in None` — a Python membership test with `None` on the right
raises `TypeError` whatever the left operand is (`None` is not a container). -/
def pyInNone (_x : Option VectorStore) : Except PyErr Bool :=
  .error (.typeError "argument of type NoneType is not iterable")

/-- `new_docs = List[Document] = []` — the chained assignment's second target
subscript-assigns into `typing.List`, a `TypeError` (dead code at runtime,
see `add_documents`). -/
def typingListItemAssign : Except PyErr (List Document) :=
  .error (.typeError "type object does not support item assignment")

/-- The dedup loop of `add_documents`: looks the ledger up under the key
`"raws"`, although `__init__` seeds it under `"rows"`, so on a freshly seeded
ledger the first lookup raises `KeyError` (dead code at runtime, see
`add_documents`). -/
def dedupScan (meta : MetaDict) (docs : List Document) :
    Except PyErr (MetaDict × List Document) :=
  docs.foldlM (fun acc d => do
    let key := _fingerprint d.page_content d.metadata
    let raws ← match acc.1.raws with
      | some r => pure r
      | none => Except.error (.keyError "raws")
    if key ∈ raws then pure acc
    else pure ({ acc.1 with raws := some (raws ++ [key]) }, acc.2 ++ [d]))
    (meta, [])

/-- `self.vs.add_documents(new_docs)` + `self.vs.save_local(...)` +
`self._save_meta()`: update the handle and persist index artifacts and ledger
JSON. -/
def persistAll (st : FaissState) (vs : VectorStore) (meta : MetaDict) :
    FaissState :=
  { st with
    vs := some vs
    meta := meta
    disk := { hasIndexFaiss := true, hasIndexPkl := true,
              savedIndex := vs, savedMeta := some meta } }

/-- `FaissManager.add_documents(docs)`.  The guard is written
`if self.vs in None:` — a membership test, not `is None` — so the very first
statement raises `TypeError` on every call, loaded handle or not.  The
intended `RuntimeError` state gate and everything below it are dead code. -/
def add_documents (st : FaissState) (docs : List Document) :
    Except PyErr (FaissState × Nat) := do
  let gate ← pyInNone st.vs
  if gate then
    throw (.runtimeError "Call load_or_create() before add_documents_idempotent().")
  let _newDocsInit ← typingListItemAssign
  let (meta, newDocs) ← dedupScan st.meta docs
  if newDocs.isEmpty then
    return ({ st with meta := meta }, newDocs.length)
  else
    let vs ← match st.vs with
      | some v => pure v
      | none => Except.error (.attributeError "NoneType object has no attribute add_documents")
    return (persistAll st (vs.addDocuments newDocs) meta, newDocs.length)

/-- `FaissManager.load_or_create(texts, metadatas)`: load the persisted index
when both artifact files exist (ignoring the arguments), otherwise require
non-empty seed `texts` (`if not texts: raise ProjectException(...)`) and build
and persist a fresh index from them. -/
def load_or_create (st : FaissState) (texts : Option (List String))
    (metadatas : Option (List ChunkMeta)) :
    Except PyErr (FaissState × VectorStore) :=
  if _exists st.disk then
    .ok ({ st with vs := some st.disk.savedIndex }, st.disk.savedIndex)
  else if (texts.getD []).isEmpty then
    .error (.projectException "No existing FAISS index and no data to create one" none)
  else
    let v := VectorStore.fromTexts (texts.getD []) (metadatas.getD [])
    .ok ({ st with
           vs := some v
           disk := { st.disk with
                     hasIndexFaiss := true
                     hasIndexPkl := true
                     savedIndex := v } }, v)

end FaissManager

/-- `ChatAnswer` (pydantic model in `model/models.py`): a string field with
`min_length=1, max_length=4096`; construction raises `ValidationError`
outside these bounds, and returns the string unchanged inside them. -/
def ChatAnswer.validate (s : String) : Except PyErr String :=
  if 1 ≤ s.length ∧ s.length ≤ 4096 then .ok s
  else .error (.validationError "answer must have between 1 and 4096 characters")

/-- A `ConversationalRAG` instance, reduced to the state `invoke` consults:
the assembled LCEL chain, modelled as a pure function from user input and
chat history (message contents) to the pipeline's answer string; `none`
before any retriever is bound. -/
structure ConversationalRAG where
  chain : Option (String → List String → String)

namespace ConversationalRAG

/-- The constructor path with `retriever=None`: `self.chain` stays `None` and
`_build_lcel_chain` is not called. -/
def noRetriever : ConversationalRAG := ⟨none⟩

def stateErrorMsg : String :=
  "RAG chain not initialized. Call load_retriever_from_faiss() before invoke()."

def invokeErrorMsg : String := "Invocation error in ConversationalRAG"

def fallbackAnswer : String := "No answer generated."

/-- Body of the `try` block of `ConversationalRAG.invoke`: state gate on the
chain, pipeline call, falsy-result fallback, then `ChatAnswer` validation
(whose `ValidationError` is re-raised as a `ProjectException`). -/
def invokeBody (rag : ConversationalRAG) (user_input : String)
    (chat_history : Option (List String)) : Except PyErr String :=
  match rag.chain with
  | none => .error (.projectException stateErrorMsg none)
  | some f =>
    let answer := f user_input (chat_history.getD [])
    if answer = "" then .ok fallbackAnswer
    else
      match ChatAnswer.validate answer with
      | .ok v => .ok v
      | .error ve => .error (reraise ve)

/-- `ConversationalRAG.invoke`: the `try` body wrapped by the
`except Exception` clause, which re-raises every failure as
`ProjectException("Invocation error in ConversationalRAG", sys)` with the
original failure chained as its cause. -/
def invoke (rag : ConversationalRAG) (user_input : String)
    (chat_history : Option (List String)) : Except PyErr String :=
  match invokeBody rag user_input chat_history with
  | .ok a => .ok a
  | .error e => .error (.projectException invokeErrorMsg (some e))

end ConversationalRAG

/-- `utils/file_io.py`: the storage allow-list `SUPPORTED_EXTENSIONS`. -/
def SUPPORTED_EXTENSIONS : List String :=
  [".pdf", ".docx", ".txt", ".pptx", ".md", ".csv", ".xlsx", ".xls",
   ".db", ".sqlite", ".sqlite3"]

/-- `utils/document_ops.py` dispatches loaders only for these extensions (its
own `SUPPORTED_EXTENSIONS`). -/
def LOADER_EXTENSIONS : List String := [".pdf", ".docx", ".txt"]

/-- Split a character list on `'/'` into path components. -/
def splitComponents (l : List Char) : List (List Char) :=
  let r := l.foldl
    (fun (acc : List (List Char) × List Char) c =>
      if c = '/' then (acc.1 ++ [acc.2], []) else (acc.1, acc.2 ++ [c]))
    ([], [])
  r.1 ++ [r.2]

/-- `pathlib.Path(s).name`: the final non-empty (POSIX) path component. -/
def pathName (s : String) : String :=
  String.mk (((splitComponents s.data).filter (fun c => c ≠ [])).getLastD [])

/-- Index of the last dot in a character list, if any. -/
def lastDotIdx (l : List Char) : Option Nat :=
  (List.range l.length).foldl
    (fun acc i => if l.getD i ' ' = '.' then some i else acc) none

/-- `pathlib.Path(s).suffix`: the extension of the final component — from the
last dot, provided that dot is neither the leading nor the trailing
character. -/
def pathSuffix (s : String) : String :=
  let nm := (pathName s).data
  match lastDotIdx nm with
  | some i => if 0 < i ∧ i < nm.length - 1 then String.mk (nm.drop i) else ""
  | none => ""

/-- `pathlib.Path(s).stem`: the final component without its suffix. -/
def pathStem (s : String) : String :=
  let nm := (pathName s).data
  match lastDotIdx nm with
  | some i => if 0 < i ∧ i < nm.length - 1 then String.mk (nm.take i) else String.mk nm
  | none => String.mk nm

/-- Characters kept by `re.sub(r'[^a-zA-Z0-9_\-]', '_', ...)`. -/
def keepChar (c : Char) : Bool :=
  decide ((97 ≤ c.toNat ∧ c.toNat ≤ 122) ∨ (65 ≤ c.toNat ∧ c.toNat ≤ 90) ∨
          (48 ≤ c.toNat ∧ c.toNat ≤ 57) ∨ c = '_' ∨ c = '-')

/-- `re.sub(r'[^a-zA-Z0-9_\-]', '_', s)`: replace every disallowed character
by an underscore. -/
def sanitizeStem (s : String) : String :=
  String.mk (s.data.map fun c => if keepChar c then c else '_')

/-- Python `str.lower()` (ASCII case folding, which is all the embedded
strings use). -/
def pyLower (s : String) : String :=
  String.mk (s.data.map Char.toLower)

/-- An uploaded file-like object: `filename`/`name` attributes (absent =
`none`), whether it exposes one of the byte-readable interfaces the save loop
probes (`.file`, `.read`, `.getbuffer`), and its bytes. -/
structure UploadFile where
  filename : Option String
  name : Option String
  readable : Bool
  content : List Nat

/-- `getattr(uf, "filename", getattr(uf, "name", "file"))`. -/
def uploadName (uf : UploadFile) : String :=
  uf.filename.getD (uf.name.getD "file")

/-- Outcome of `save_uploaded_files`: the files written into the target
directory (side effect) and the function's Python return value. -/
structure SaveResult where
  written : List (String × List Nat)
  ret : Option (List String)

/-- Modelled from the spec: the logging module `multi_doc_chat/logger` is not
under `src/`.  Per spec section 7 unsupported extensions during save are
"skipped with a logged warning, not an error", so logging is modelled as an
infallible sink: any log call — including the misspelled `log.warrning(...)`
in `save_uploaded_files` — records its message and never raises. -/
def logSink (_msg : String) : Unit := ()

/-- The `for uf in uploaded_files` loop of `save_uploaded_files`: skip
unsupported extensions with a warning, write supported files under the
sanitized name `safe_name + "_" + uuid4().hex[:6] + ext` (the random hex
supply is the `uuidHex` argument, consumed per saved file), and raise
`ValueError` on an object with no readable interface. -/
def saveLoop (uuidHex : Nat → String) :
    List UploadFile → Nat → List (String × List Nat) →
    Except PyErr (List (String × List Nat))
  | [], _, acc => .ok acc
  | uf :: rest, i, acc =>
    let nm := uploadName uf
    let ext := pyLower (pathSuffix nm)
    if ext ∉ SUPPORTED_EXTENSIONS then
      let _ := logSink "Unsupported file skipped"
      saveLoop uuidHex rest i acc
    else if uf.readable then
      let fname := pyLower (sanitizeStem (pathStem nm)) ++ "_" ++ uuidHex i ++ ext
      saveLoop uuidHex rest (i + 1) (acc ++ [(fname, uf.content)])
    else .error (.valueError "Unsupported uploaded file object; no readable interface")

/-- `save_uploaded_files(uploaded_files, target_dir)`: runs the save loop in
a `try` whose `except` re-raises as `ProjectException`; the body ends without
a `return` statement, so on success Python returns `None` — the accumulated
`saved` list of paths is never returned. -/
def save_uploaded_files (files : List UploadFile) (uuidHex : Nat → String) :
    Except PyErr SaveResult :=
  match saveLoop uuidHex files 0 [] with
  | .ok written => .ok ⟨written, none⟩
  | .error e => .error (reraise e)

/-- `load_documents(paths)` from `utils/document_ops.py`: iterates `paths`,
dispatching a loader per supported extension (`loaderFor` models the external
PDF/DOCX/text loaders).  Iterating `None` raises `TypeError`, wrapped by the
function's `except` clause; and the function body also ends without a
`return`, so even on success Python returns `None`. -/
def load_documents (loaderFor : String → List Document)
    (paths : Option (List String)) : Except PyErr (Option (List Document)) :=
  match paths with
  | none => .error (reraise (.typeError "NoneType object is not iterable"))
  | some ps =>
    let _docs := ps.foldl
      (fun acc p =>
        if pyLower (pathSuffix p) ∈ LOADER_EXTENSIONS then acc ++ loaderFor p
        else acc)
      ([] : List Document)
    .ok none

namespace ChatIngestor

/-- `ChatIngestor._split(docs)`: delegates to the external recursive splitter
(`splitter`); called with `None` (as happens downstream of `load_documents`)
the library raises `TypeError` while iterating the documents. -/
def _split (splitter : List Document → List Document)
    (docs : Option (List Document)) : Except PyErr (List Document) :=
  match docs with
  | none => .error (.typeError "NoneType object is not iterable")
  | some ds => .ok (splitter ds)

end ChatIngestor

/-- Search parameters of a retriever (`search_kwargs` dict); `none` = key
absent. -/
structure SearchKwargs where
  k : Option Nat
  fetch_k : Option Nat
  lambda_mult : Option ℚ

/-- A retriever handle as configured by the embedded code. -/
structure Retriever where
  search_type : String
  search_kwargs : SearchKwargs

/-- Python `==` between a dict and a string: the comparison is well-defined
and always `False` (dict.__eq__ with a str returns NotImplemented, and the
fallback is identity, which fails). -/
def dictEqStr (_kw : SearchKwargs) (_s : String) : Bool := false

/-- The retriever-configuration block of `ChatIngestor.build_retriver`:
`search_kwargs = {"k": k}`, plus `fetch_k` and `lambda_mult` when
`search_type == "mmr"` (here the comparison really is against
`search_type`). -/
def buildRetriverSearchKwargs (k fetch_k : Nat) (lambda_mult : ℚ)
    (search_type : String) : SearchKwargs :=
  if search_type = "mmr" then ⟨some k, some fetch_k, some lambda_mult⟩
  else ⟨some k, none, none⟩

/-- `vs._as_retriever(search_type=..., search_kwargs=...)` at the end of
`build_retriver`: the langchain FAISS vector store exposes `as_retriever`,
not `_as_retriever`, so the attribute access raises `AttributeError`
(dead code at runtime: `add_documents` has already raised). -/
def vsAsRetrieverUnderscore (_vs : VectorStore) (_st : String)
    (_kw : SearchKwargs) : Except PyErr Retriever :=
  .error (.attributeError "FAISS object has no attribute _as_retriever")

namespace ChatIngestor

/-- `ChatIngestor.build_retriver(uploaded_file, ...)`: save the uploads, load
and split them, then create the FAISS manager, load-or-create the index (the
source retries `load_or_create` once on any exception), add the chunks and
return a configured retriever; the whole body sits in a `try` whose `except`
re-raises as `ProjectException`. -/
def build_retriver (loaderFor : String → List Document)
    (splitter : List Document → List Document) (d : DiskState)
    (files : List UploadFile) (uuidHex : Nat → String)
    (k fetch_k : Nat) (lambda_mult : ℚ) (search_type : String) :
    Except PyErr Retriever :=
  match (do
    let saved ← save_uploaded_files files uuidHex
    let docs ← load_documents loaderFor saved.ret
    let chunks ← _split splitter docs
    let texts := chunks.map Document.page_content
    let metas := chunks.map Document.metadata
    let fm ← FaissManager.initManager d
    let (fm2, vs) ← match FaissManager.load_or_create fm (some texts) (some metas) with
      | .error _ => FaissManager.load_or_create fm (some texts) (some metas)
      | .ok r => Except.ok r
    let (_fm3, _added) ← FaissManager.add_documents fm2 chunks
    let kwargs := buildRetriverSearchKwargs k fetch_k lambda_mult search_type
    vsAsRetrieverUnderscore vs search_type kwargs : Except PyErr Retriever) with
  | .ok r => .ok r
  | .error e => .error (reraise e)

end ChatIngestor

namespace ConversationalRAG

/-- `ConversationalRAG.load_retriever_from_faiss`: checks the index
directory, loads the store (external), then — when no explicit
`search_kwargs` is given — builds `{"k": k}` and only adds `fetch_k` and
`lambda_mult` under `if search_kwargs == "mmr":`, a comparison of the dict
itself against the string `"mmr"`.  On success the retriever is stored, the
LCEL chain rebuilt (`pipelineOf` models the assembled chain) and the
retriever returned; failures re-raise as `ProjectException`. -/
def load_retriever_from_faiss (rag : ConversationalRAG)
    (pipelineOf : Retriever → String → List String → String)
    (indexDirExists : Bool) (k : Nat) (search_type : String)
    (fetch_k : Nat) (lambda_mult : ℚ) (search_kwargs : Option SearchKwargs) :
    Except PyErr (ConversationalRAG × Retriever) :=
  match (do
    if !indexDirExists then
      throw (.fileNotFoundError "FAISS index directory not found")
    let kw := match search_kwargs with
      | some kw => kw
      | none =>
        let kw0 : SearchKwargs := ⟨some k, none, none⟩
        if dictEqStr kw0 "mmr" then ⟨some k, some fetch_k, some lambda_mult⟩
        else kw0
    pure (⟨search_type, kw⟩ : Retriever) : Except PyErr Retriever) with
  | .ok r => .ok ({ rag with chain := some (pipelineOf r) }, r)
  | .error e => .error (reraise e)

end ConversationalRAG

lemma string_append_right_cancel {a b c : String} (h : a ++ c = b ++ c) :
    a = b := by
  apply String.ext
  have hd : a.data ++ c.data = b.data ++ c.data := by
    have := congrArg String.data h
    simpa [String.data_append] using this
  exact List.append_cancel_right hd

/-- C4 counterexample: two chunks with identical text `"t"`, identical
`file_path` and `raw_id`, but different `source` values (`""` vs `"p"`)
receive the same fingerprint `"p::"` — the empty-string source is falsy, so
`_fingerprint` falls back to the shared `file_path`.  This refutes the claim
that two chunks with identical text but different source values always
receive different fingerprints. -/
theorem C4_claim_counterexample :
    FaissManager._fingerprint "t" ⟨some "", some "p", none⟩ =
      FaissManager._fingerprint "t" ⟨some "p", some "p", none⟩ ∧
    (⟨some "", some "p", none⟩ : ChunkMeta).source ≠
      (⟨some "p", some "p", none⟩ : ChunkMeta).source ∧
    (⟨some "", some "p", none⟩ : ChunkMeta).file_path =
      (⟨some "p", some "p", none⟩ : ChunkMeta).file_path ∧
    (⟨some "", some "p", none⟩ : ChunkMeta).raw_id =
      (⟨some "p", some "p", none⟩ : ChunkMeta).raw_id := by
  refine ⟨rfl, ?_, rfl, rfl⟩
  decide

/-- C4 (amended): `_fingerprint` is deterministic; it equals
`src ++ "::" ++ raw_id` (empty string for an absent `raw_id`) where `src` is
the first truthy value among `source` and `file_path` (an empty-string
`source` falls through to `file_path`); when no such `src` is selected it is
the SHA-256 hex digest of the text; and two chunks with identical text and
identical effective `raw_id` whose selected sources differ receive different
fingerprints. -/
theorem C4_fingerprint_amended :
    (∀ (T : String) (M : ChunkMeta),
        FaissManager._fingerprint T M = FaissManager._fingerprint T M) ∧
    (∀ (T : String) (M : ChunkMeta) (s : String), FaissManager.pickSrc M = some s →
        FaissManager._fingerprint T M = s ++ "::" ++ M.raw_id.getD "") ∧
    (∀ (T : String) (M : ChunkMeta), FaissManager.pickSrc M = none →
        FaissManager._fingerprint T M = sha256Hexdigest T) ∧
    (∀ (T : String) (M1 M2 : ChunkMeta) (s1 s2 : String),
        M1.raw_id.getD "" = M2.raw_id.getD "" →
        FaissManager.pickSrc M1 = some s1 → FaissManager.pickSrc M2 = some s2 →
        s1 ≠ s2 →
        FaissManager._fingerprint T M1 ≠ FaissManager._fingerprint T M2) := by
  refine ⟨fun T M => rfl, ?_, ?_, ?_⟩
  · intro T M s hs
    simp [FaissManager._fingerprint, hs]
  · intro T M hs
    simp [FaissManager._fingerprint, hs]
  · intro T M1 M2 s1 s2 hrid h1 h2 hne heq
    apply hne
    rw [FaissManager._fingerprint, FaissManager._fingerprint, h1, h2, hrid] at heq
    have h3 : s1 ++ ("::" ++ M2.raw_id.getD "") = s2 ++ ("::" ++ M2.raw_id.getD "") := by
      simpa [String.append_assoc] using heq
    exact string_append_right_cancel h3

/-- C4 amended witness: the three conditional parts instantiated at concrete
chunks. -/
theorem C4_fingerprint_amended_witness :
    FaissManager._fingerprint "t" ⟨some "x", none, none⟩ = "x" ++ "::" ++ "" ∧
    FaissManager._fingerprint "t" ⟨none, none, none⟩ = sha256Hexdigest "t" ∧
    FaissManager._fingerprint "t" ⟨some "x", none, none⟩ ≠
      FaissManager._fingerprint "t" ⟨some "y", none, none⟩ :=
  ⟨C4_fingerprint_amended.2.1 "t" ⟨some "x", none, none⟩ "x" rfl,
   C4_fingerprint_amended.2.2.1 "t" ⟨none, none, none⟩ rfl,
   C4_fingerprint_amended.2.2.2 "t" ⟨some "x", none, none⟩ ⟨some "y", none, none⟩
     "x" "y" rfl rfl rfl (by decide)⟩

/-- C1: `add_documents` never performs the claimed idempotent ingestion.  Even
with a loaded vector-store handle (the state a successful `load_or_create`
produces), every call — first or repeated — raises `TypeError` at the guard
`if self.vs in None:` before any fingerprint is computed, instead of skipping
seen chunks and returning the number added. -/
theorem C1_add_documents_always_raises :
    ∀ (v : VectorStore) (meta : MetaDict) (d : DiskState) (docs : List Document),
      FaissManager.add_documents ⟨some v, meta, d⟩ docs =
        .error (.typeError "argument of type NoneType is not iterable") := by
  intro v meta d docs
  rfl

/-- C2: calling `add_documents` before `load_or_create` does fail without
touching ledger or index, but with a `TypeError` raised by the membership
test `self.vs in None`, not with the state error "Call load_or_create()
before add_documents_idempotent()." the guard was meant to raise. -/
theorem C2_gating_raises_type_error_not_state_error :
    ∀ (d : DiskState) (docs : List Document),
      FaissManager.add_documents (FaissManager.freshState d) docs =
        .error (.typeError "argument of type NoneType is not iterable") ∧
      (PyErr.typeError "argument of type NoneType is not iterable" ≠
        PyErr.runtimeError "Call load_or_create() before add_documents_idempotent().") := by
  intro d docs
  exact ⟨rfl, fun h => PyErr.noConfusion h⟩

/-- C3: the `load_or_create` contract.  When both artifact files exist it
loads and returns the persisted index unchanged, ignoring `texts` and
`metadatas` (they are arbitrary here and absent from the result); when the
index is absent and `texts` is `None` or empty it fails with the
configuration error; when the index is absent and `texts` is non-empty it
builds the index from them and persists it before returning. -/
theorem C3_load_or_create_contract :
    ∀ (st : FaissState) (texts : Option (List String))
      (metadatas : Option (List ChunkMeta)),
      (FaissManager._exists st.disk = true →
        FaissManager.load_or_create st texts metadatas =
          .ok ({ st with vs := some st.disk.savedIndex }, st.disk.savedIndex)) ∧
      (FaissManager._exists st.disk = false → (texts.getD []).isEmpty = true →
        FaissManager.load_or_create st texts metadatas =
          .error (.projectException "No existing FAISS index and no data to create one" none)) ∧
      (FaissManager._exists st.disk = false →
        ∀ ts : List String, texts = some ts → ts ≠ [] →
        FaissManager.load_or_create st texts metadatas =
          .ok ({ st with
                 vs := some (VectorStore.fromTexts ts (metadatas.getD []))
                 disk := { st.disk with
                           hasIndexFaiss := true
                           hasIndexPkl := true
                           savedIndex := VectorStore.fromTexts ts (metadatas.getD []) } },
               VectorStore.fromTexts ts (metadatas.getD []))) := by
  intro st texts metadatas
  refine ⟨?_, ?_, ?_⟩
  · intro h
    simp [FaissManager.load_or_create, h]
  · intro h hempty
    simp [FaissManager.load_or_create, h, hempty]
  · intro h ts hts hne
    subst hts
    simp [FaissManager.load_or_create, h, List.isEmpty_iff, hne, VectorStore.fromTexts]

/-- C3 witness: the three branches of the contract at concrete states — an
existing index is returned unchanged with seed texts ignored; a missing index
with no seeds is a configuration error; a missing index with seeds is built
and persisted. -/
theorem C3_load_or_create_witness :
    FaissManager.load_or_create
        (FaissManager.freshState ⟨true, true, ⟨["a"], [⟨none, none, none⟩]⟩, none⟩)
        (some ["x"]) none =
      .ok (⟨some ⟨["a"], [⟨none, none, none⟩]⟩, ⟨some [], none⟩,
            ⟨true, true, ⟨["a"], [⟨none, none, none⟩]⟩, none⟩⟩,
           ⟨["a"], [⟨none, none, none⟩]⟩) ∧
    FaissManager.load_or_create
        (FaissManager.freshState ⟨false, true, ⟨[], []⟩, none⟩) none none =
      .error (.projectException "No existing FAISS index and no data to create one" none) ∧
    FaissManager.load_or_create
        (FaissManager.freshState ⟨false, true, ⟨[], []⟩, none⟩) (some ["x"]) none =
      .ok (⟨some ⟨["x"], []⟩, ⟨some [], none⟩, ⟨true, true, ⟨["x"], []⟩, none⟩⟩,
           ⟨["x"], []⟩) :=
  ⟨(C3_load_or_create_contract
      (FaissManager.freshState ⟨true, true, ⟨["a"], [⟨none, none, none⟩]⟩, none⟩)
      (some ["x"]) none).1 rfl,
   (C3_load_or_create_contract
      (FaissManager.freshState ⟨false, true, ⟨[], []⟩, none⟩) none none).2.1 rfl rfl,
   (C3_load_or_create_contract
      (FaissManager.freshState ⟨false, true, ⟨[], []⟩, none⟩) (some ["x"]) none).2.2
      rfl ["x"] rfl (by decide)⟩

lemma except_bind_error {ε α β : Type} (e : ε) (f : α → Except ε β) :
    (Except.error e >>= f) = Except.error e := rfl

lemma except_bind_ok {ε α β : Type} (a : α) (f : α → Except ε β) :
    (Except.ok a >>= f) = f a := rfl

lemma string_eq_empty_of_length_eq_zero {s : String} (h : s.length = 0) :
    s = "" := by
  cases s with
  | mk data =>
    simp [String.length] at h
    subst h
    rfl

lemma saveLoop_ok_of_readable (u : Nat → String) :
    ∀ (files : List UploadFile) (i : Nat) (acc : List (String × List Nat)),
      (∀ uf ∈ files, uf.readable = true) →
      ∃ w, saveLoop u files i acc = .ok w := by
  intro files
  induction files with
  | nil => exact fun i acc _ => ⟨acc, rfl⟩
  | cons uf rest ih =>
    intro i acc hall
    have hr : uf.readable = true := hall uf (by simp)
    have hrest : ∀ x ∈ rest, x.readable = true := fun x hx => hall x (by simp [hx])
    by_cases hext : pyLower (pathSuffix (uploadName uf)) ∈ SUPPORTED_EXTENSIONS
    · obtain ⟨w, hw⟩ := ih (i + 1)
        (acc ++ [(pyLower (sanitizeStem (pathStem (uploadName uf))) ++ "_" ++
                  u i ++ pyLower (pathSuffix (uploadName uf)), uf.content)]) hrest
      exact ⟨w, by simp [saveLoop, hext, hr, hw]⟩
    · obtain ⟨w, hw⟩ := ih i acc hrest
      exact ⟨w, by simp [saveLoop, hext, hw]⟩

lemma save_ret_none {files : List UploadFile} {u : Nat → String}
    {r : SaveResult} (h : save_uploaded_files files u = .ok r) : r.ret = none := by
  unfold save_uploaded_files at h
  cases hsl : saveLoop u files 0 [] with
  | ok w =>
    rw [hsl] at h
    simp at h
    rw [← h]
  | error e =>
    rw [hsl] at h
    exact Except.noConfusion h

/-- C5: on an instance constructed without a retriever (no chain assembled),
`invoke` fails with the wrapped state error whose cause directs the caller to
bind a retriever via `load_retriever_from_faiss` first; no answer is
produced. -/
theorem C5_invoke_before_retriever_fails :
    ∀ (ui : String) (hist : Option (List String)),
      ConversationalRAG.invoke ConversationalRAG.noRetriever ui hist =
        .error (.projectException ConversationalRAG.invokeErrorMsg
          (some (.projectException ConversationalRAG.stateErrorMsg none))) ∧
      ConversationalRAG.stateErrorMsg =
        "RAG chain not initialized. Call load_retriever_from_faiss() before invoke()." := by
  intro ui hist
  exact ⟨rfl, rfl⟩

/-- C6 counterexample: when the pipeline produces the length-0 answer, `invoke`
does not reject it with a validation error — it returns the fallback string
successfully. -/
theorem C6_claim_counterexample :
    ConversationalRAG.invoke ⟨some fun _ _ => ""⟩ "q" none =
      .ok ConversationalRAG.fallbackAnswer ∧
    ∀ e : PyErr, ConversationalRAG.invoke ⟨some fun _ _ => ""⟩ "q" none ≠ .error e := by
  constructor
  · rfl
  · intro e h
    have h1 : ConversationalRAG.invoke ⟨some fun _ _ => ""⟩ "q" none =
        .ok ConversationalRAG.fallbackAnswer := rfl
    exact Except.noConfusion (h1.symm.trans h)

/-- C6 (amended): a length-0 pipeline answer yields the fixed fallback string
(the empty-result path runs before validation); a 1–4096 character answer is
returned unchanged; an answer longer than 4096 characters is rejected with a
distinct validation error (wrapped as the invocation `ProjectException`),
never silently truncated. -/
theorem C6_answer_validation_amended :
    ∀ (f : String → List String → String) (ui : String)
      (hist : Option (List String)),
      ((f ui (hist.getD [])).length = 0 →
        ConversationalRAG.invoke ⟨some f⟩ ui hist =
          .ok ConversationalRAG.fallbackAnswer) ∧
      (1 ≤ (f ui (hist.getD [])).length → (f ui (hist.getD [])).length ≤ 4096 →
        ConversationalRAG.invoke ⟨some f⟩ ui hist = .ok (f ui (hist.getD []))) ∧
      (4096 < (f ui (hist.getD [])).length →
        ConversationalRAG.invoke ⟨some f⟩ ui hist =
          .error (.projectException ConversationalRAG.invokeErrorMsg
            (some (reraise (.validationError
              "answer must have between 1 and 4096 characters"))))) := by
  intro f ui hist
  refine ⟨?_, ?_, ?_⟩
  · intro h0
    have ha : f ui (hist.getD []) = "" := string_eq_empty_of_length_eq_zero h0
    simp [ConversationalRAG.invoke, ConversationalRAG.invokeBody, ha]
  · intro h1 h2
    have hne : f ui (hist.getD []) ≠ "" := by
      intro h
      rw [h] at h1
      exact absurd h1 (by decide)
    simp [ConversationalRAG.invoke, ConversationalRAG.invokeBody, hne,
          ChatAnswer.validate, h1, h2]
  · intro h3
    have hne : f ui (hist.getD []) ≠ "" := by
      intro h
      rw [h] at h3
      exact absurd h3 (by decide)
    have hnotle : ¬ (f ui (hist.getD [])).length ≤ 4096 := by omega
    simp [ConversationalRAG.invoke, ConversationalRAG.invokeBody, hne,
          ChatAnswer.validate, hnotle]

/-- C6 amended witness: a 2-character answer passes through unchanged, a
4097-character answer is rejected with the wrapped validation error, and a
length-0 answer degrades to the fallback string. -/
theorem C6_answer_validation_amended_witness :
    ConversationalRAG.invoke ⟨some fun _ _ => "hi"⟩ "q" none = .ok "hi" ∧
    ConversationalRAG.invoke
        ⟨some fun _ _ => String.mk (List.replicate 4097 'x')⟩ "q" none =
      .error (.projectException ConversationalRAG.invokeErrorMsg
        (some (reraise (.validationError
          "answer must have between 1 and 4096 characters")))) ∧
    ConversationalRAG.invoke ⟨some fun _ _ => ""⟩ "q" none =
      .ok ConversationalRAG.fallbackAnswer :=
  ⟨(C6_answer_validation_amended (fun _ _ => "hi") "q" none).2.1
      (by decide) (by decide),
   (C6_answer_validation_amended
      (fun _ _ => String.mk (List.replicate 4097 'x')) "q" none).2.2
      (by
        have h : (String.mk (List.replicate 4097 'x')).length = 4097 :=
          List.length_replicate 4097 'x'
        omega),
   (C6_answer_validation_amended (fun _ _ => "") "q" none).1 rfl⟩

/-- C7: whenever the assembled pipeline returns the empty (falsy) string,
`invoke` returns the fixed literal fallback string instead of raising. -/
theorem C7_empty_result_fallback :
    ∀ (f : String → List String → String) (ui : String)
      (hist : Option (List String)),
      f ui (hist.getD []) = "" →
      ConversationalRAG.invoke ⟨some f⟩ ui hist =
        .ok ConversationalRAG.fallbackAnswer ∧
      ConversationalRAG.fallbackAnswer = "No answer generated." := by
  intro f ui hist h
  exact ⟨by simp [ConversationalRAG.invoke, ConversationalRAG.invokeBody, h], rfl⟩

/-- C7 witness: a pipeline that returns the empty string, invoked on a
concrete input with concrete history. -/
theorem C7_empty_result_fallback_witness :
    ConversationalRAG.invoke ⟨some fun _ _ => ""⟩ "x" (some ["m"]) =
      .ok ConversationalRAG.fallbackAnswer ∧
    ConversationalRAG.fallbackAnswer = "No answer generated." :=
  C7_empty_result_fallback (fun _ _ => "") "x" (some ["m"]) rfl

/-- C8: when every upload exposes a readable interface, `save_uploaded_files`
never fails — files with extensions outside the allow-list are skipped (the
save loop just moves on after the logged warning) while each supported file
is written as `sanitized-stem + "_" + random-hex + ext`. -/
theorem C8_unsupported_extensions_skipped :
    ∀ (files : List UploadFile) (u : Nat → String),
      (∀ uf ∈ files, uf.readable = true) →
      (∃ r : SaveResult, save_uploaded_files files u = .ok r) ∧
      (∀ (uf : UploadFile) (rest : List UploadFile) (i : Nat)
          (acc : List (String × List Nat)),
        pyLower (pathSuffix (uploadName uf)) ∉ SUPPORTED_EXTENSIONS →
        saveLoop u (uf :: rest) i acc = saveLoop u rest i acc) ∧
      (∀ (uf : UploadFile) (rest : List UploadFile) (i : Nat)
          (acc : List (String × List Nat)),
        pyLower (pathSuffix (uploadName uf)) ∈ SUPPORTED_EXTENSIONS →
        uf.readable = true →
        saveLoop u (uf :: rest) i acc =
          saveLoop u rest (i + 1)
            (acc ++ [(pyLower (sanitizeStem (pathStem (uploadName uf))) ++ "_" ++
                      u i ++ pyLower (pathSuffix (uploadName uf)), uf.content)])) := by
  intro files u hall
  refine ⟨?_, ?_, ?_⟩
  · obtain ⟨w, hw⟩ := saveLoop_ok_of_readable u files 0 [] hall
    exact ⟨⟨w, none⟩, by simp [save_uploaded_files, hw]⟩
  · intro uf rest i acc hext
    simp [saveLoop, hext]
  · intro uf rest i acc hext hr
    simp [saveLoop, hext, hr]

/-- C8 witness: a batch holding one supported and one unsupported upload is
saved without error; the `.exe` is skipped and the PDF lands under its
sanitized suffixed name. -/
theorem C8_unsupported_extensions_skipped_witness :
    (∀ uf ∈ ([⟨some "Report 1.PDF", none, true, [1, 2]⟩,
              ⟨some "evil.exe", none, true, [9]⟩] : List UploadFile),
        uf.readable = true) ∧
    (∃ r : SaveResult,
      save_uploaded_files
        [⟨some "Report 1.PDF", none, true, [1, 2]⟩,
         ⟨some "evil.exe", none, true, [9]⟩] (fun _ => "abc123") = .ok r) ∧
    save_uploaded_files
        [⟨some "Report 1.PDF", none, true, [1, 2]⟩,
         ⟨some "evil.exe", none, true, [9]⟩] (fun _ => "abc123") =
      .ok ⟨[("report_1_abc123.pdf", [1, 2])], none⟩ := by
  refine ⟨by decide, ?_, ?_⟩
  · exact (C8_unsupported_extensions_skipped _ _ (by decide)).1
  · rfl

/-- C9: the retriever construction is broken end to end — `build_retriver`
always fails (the save helper returns `None`, so document loading raises
before any retriever is assembled, and even its tail would raise at
`_as_retriever`), and in `load_retriever_from_faiss` the `mmr` search type
never receives `fetch_k`/`lambda_mult` because the code compares the kwargs
dict, not the search type, against `"mmr"`. -/
theorem C9_retriever_configuration_broken :
    (∀ (loaderFor : String → List Document)
        (splitter : List Document → List Document)
        (d : DiskState) (files : List UploadFile) (u : Nat → String)
        (k fetch_k : Nat) (lambda_mult : ℚ) (search_type : String),
      ∃ e, ChatIngestor.build_retriver loaderFor splitter d files u
             k fetch_k lambda_mult search_type = .error e) ∧
    (∀ (rag : ConversationalRAG)
        (pipelineOf : Retriever → String → List String → String)
        (k fetch_k : Nat) (lambda_mult : ℚ),
      rag.load_retriever_from_faiss pipelineOf true k "mmr"
          fetch_k lambda_mult none =
        .ok ({ rag with chain := some (pipelineOf ⟨"mmr", ⟨some k, none, none⟩⟩) },
             ⟨"mmr", ⟨some k, none, none⟩⟩) ∧
      (⟨some k, none, none⟩ : SearchKwargs).fetch_k = none ∧
      (⟨some k, none, none⟩ : SearchKwargs).lambda_mult = none) := by
  constructor
  · intro loaderFor splitter d files u k fk lm st
    cases hsave : save_uploaded_files files u with
    | error e =>
      exact ⟨reraise e,
        by simp [ChatIngestor.build_retriver, hsave, except_bind_error]⟩
    | ok r =>
      have hr : r.ret = none := save_ret_none hsave
      refine ⟨reraise (reraise (.typeError "NoneType object is not iterable")), ?_⟩
      simp [ChatIngestor.build_retriver, hsave, hr, load_documents,
            except_bind_ok, except_bind_error]
  · intro rag pipelineOf k fk lm
    exact ⟨rfl, rfl, rfl⟩

/-- C10: the path list `save_uploaded_files` accumulates is never returned —
on success the function's Python return value is `None`, so the orchestrator
receives no paths for the document-loading step. -/
theorem C10_save_uploaded_files_returns_none :
    ∀ (files : List UploadFile) (u : Nat → String) (r : SaveResult),
      save_uploaded_files files u = .ok r → r.ret = none := by
  intro files u r h
  exact save_ret_none h

/-- C10 witness: the empty batch saves successfully and the return value is
`None`. -/
theorem C10_save_uploaded_files_returns_none_witness :
    save_uploaded_files [] (fun _ => "a") = .ok ⟨[], none⟩ ∧
    SaveResult.ret ⟨[], none⟩ = none :=
  ⟨rfl, C10_save_uploaded_files_returns_none [] (fun _ => "a") ⟨[], none⟩ rfl⟩

end MultiDocChat
